import Mathlib

/-!
Verification development for the oven/kitchen timer controller in `src/main.c`.

The embedding below translates the core of `main.c` into Lean:

* `incrementTime` / `decrementTime` model the functions of the same name
  (`uint32_t` hour/minute pairs; all call sites keep them normalized, where
  the `Nat` arithmetic coincides with the machine arithmetic).
* `renderTime` models the format produced by `printTime`, i.e. the C
  format directive `%2d:%02d` followed by a carriage return (`%2d`
  right-justifies in a field of width 2 padded with spaces, `%02d` pads
  with zeros).
* `Msg`, `MsgQ`, `enqueue`, `dequeue` model the message queue
  (`MessageQueue`, `FrontQueue`, `RearQueue` and the functions `enqueue`,
  `dequeue`).  The queue indices are literal (linear), exactly as in the C
  code: `enqueue` refuses whenever `RearQueue` equals
  `MESSAGE_QUEUE_SZ - 1`, and indices reset to `-1` only when the queue is
  drained empty.
* `LoopState`, `debounce`, `handleEvent`, `clockTick`, `eventPhase`,
  `step` model one iteration of the `while (1)` control loop of `main`:
  `debounce` is the switch-bounce filter (lines 148-169), `handleEvent`
  the event/periodic dispatch (lines 171-245), `clockTick` the
  unconditional wall-clock check (lines 247-254).  Ticks are modelled as
  unbounded `Int` (the `int32_t` tick counter; the claims under scrutiny
  concern magnitudes far below the wrap-around range).  The calls to
  `printTime hh mm` are recorded in the `out` field as the pair
  `(hh, mm)`, most recent first; `renderTime` gives the emitted text.
* `initState` models the initialisation of `main` before the loop
  (display state `DISPLAY_CLOCK`, clock 12:12, alarm 0:00, LED off,
  initial render of the clock), parameterised by the `CurrentTicks`
  values read at lines 137-138.
* `Reach` is the set of loop states reachable from `initState` under
  arbitrary tick values and arbitrary dequeue results (a superset of the
  behaviours of the real device).

Spec state names map to code names as: CLOCK = `DISPLAY_CLOCK`,
ALARM_ARMING = `DISPLAY_ALARM_INIT`, ALARM_RUNNING = `DISPLAY_ALARM`.
-/

/-- Initial clock hour (`CURRENT_HH` in main.c). -/
def CURRENT_HH : Nat := 12

/-- Initial clock minute (`CURRENT_MM` in main.c). -/
def CURRENT_MM : Nat := 12

/-- Debounce threshold in ticks (`DEBOUNCE_TIME` in main.c). -/
def DEBOUNCE_TIME : Int := 200

/-- Arming-window length in ticks (`DELAY_TIME_10`). -/
def DELAY_TIME_10 : Int := 10000

/-- LED auto-off window in ticks (`DELAY_TIME_15`). -/
def DELAY_TIME_15 : Int := 15000

/-- Minute period in ticks (`DELAY_TIME_60`). -/
def DELAY_TIME_60 : Int := 60000

/-- Queue capacity (`MESSAGE_QUEUE_SZ`). -/
def MESSAGE_QUEUE_SZ : Nat := 50

/-- Display state `DISPLAY_CLOCK` (spec name: CLOCK). -/
def DISPLAY_CLOCK : Nat := 0

/-- Display state `DISPLAY_ALARM_INIT` (spec name: ALARM_ARMING). -/
def DISPLAY_ALARM_INIT : Nat := 1

/-- Display state `DISPLAY_ALARM` (spec name: ALARM_RUNNING). -/
def DISPLAY_ALARM : Nat := 2

/-- Model of `incrementTime` (main.c lines 483-493): minute +1 with carry,
hour wraps 24 to 0. -/
def incrementTime (hh mm : Nat) : Nat × Nat :=
  let mm := mm + 1
  if mm = 60 then
    let hh := hh + 1
    if hh = 24 then (0, 0) else (hh, 0)
  else (hh, mm)

/-- Model of `decrementTime` (main.c lines 495-510): no-op at 0:00,
otherwise minute -1 borrowing an hour. -/
def decrementTime (hh mm : Nat) : Nat × Nat :=
  if hh = 0 ∧ mm = 0 then (hh, mm)
  else if mm = 0 then (hh - 1, 59)
  else (hh, mm - 1)

/-- Left-pad a decimal string to width 2 with the given fill character,
as the C format directives `%2d` and `%02d` do for the values used here. -/
def padLeftTo2 (fill : Char) (s : String) : String :=
  if s.length < 2 then String.mk [fill] ++ s else s

/-- Model of the text produced by `printTime` (main.c lines 512-518):
`sprintf(timeString, "%2d:%02d\r", hh, mm)`. -/
def renderTime (hh mm : Nat) : String :=
  padLeftTo2 ' ' (toString hh) ++ ":" ++ padLeftTo2 '0' (toString mm) ++ "\r"

/-- Model of `msgque_t`: a queued switch event. -/
structure Msg where
  switchPressed : Int
  switchPressedTime : Int
  deriving DecidableEq

/-- Model of the queue globals `MessageQueue`, `FrontQueue`, `RearQueue`. -/
structure MsgQ where
  MessageQueue : List Msg
  FrontQueue : Int
  RearQueue : Int
  deriving DecidableEq

/-- Queue state at program start: C globals are zero-initialised and the
cursors start at -1. -/
def emptyQueue : MsgQ :=
  { MessageQueue := List.replicate MESSAGE_QUEUE_SZ ⟨0, 0⟩
    FrontQueue := -1
    RearQueue := -1 }

/-- Model of `enqueue` (main.c lines 281-299).  The drop test is the
literal-index test `RearQueue == MESSAGE_QUEUE_SZ - 1` of the C code. -/
def enqueue (q : MsgQ) (switchPressed currentTicks : Int) : MsgQ :=
  if q.RearQueue = (MESSAGE_QUEUE_SZ : Int) - 1 then q
  else if q.FrontQueue = -1 ∧ q.RearQueue = -1 then
    { MessageQueue := q.MessageQueue.set 0 ⟨switchPressed, currentTicks⟩
      FrontQueue := 0
      RearQueue := 0 }
  else
    { MessageQueue :=
        q.MessageQueue.set (q.RearQueue + 1).toNat ⟨switchPressed, currentTicks⟩
      FrontQueue := q.FrontQueue
      RearQueue := q.RearQueue + 1 }

/-- Model of `dequeue` (main.c lines 301-316); `none` models the
`*switchPressed = -1` empty indication. -/
def dequeue (q : MsgQ) : Option Msg × MsgQ :=
  if q.FrontQueue = -1 ∧ q.RearQueue = -1 then (none, q)
  else
    let m := q.MessageQueue.getD q.FrontQueue.toNat ⟨0, 0⟩
    let slots := q.MessageQueue.set q.FrontQueue.toNat ⟨-1, m.switchPressedTime⟩
    if q.FrontQueue = q.RearQueue then
      (some m, { MessageQueue := slots, FrontQueue := -1, RearQueue := -1 })
    else
      (some m, { MessageQueue := slots, FrontQueue := q.FrontQueue + 1, RearQueue := q.RearQueue })

/-- Push a list of events in order (left to right). -/
def pushAll (q : MsgQ) (evs : List Msg) : MsgQ :=
  evs.foldl (fun q' m => enqueue q' m.switchPressed m.switchPressedTime) q

/-- Pop `n` times, collecting the results in order. -/
def popN (q : MsgQ) : Nat → List (Option Msg) × MsgQ
  | 0 => ([], q)
  | n + 1 =>
    let r := dequeue q
    let rest := popN r.2 n
    (r.1 :: rest.1, rest.2)

/-- Number of enqueued-but-not-dequeued events held by the queue. -/
def pendingCount (q : MsgQ) : Int :=
  if q.FrontQueue = -1 ∧ q.RearQueue = -1 then 0
  else q.RearQueue - q.FrontQueue + 1

/-- The queue obtained by pushing 50 events into the empty queue. -/
def fullQueue : MsgQ := pushAll emptyQueue (List.replicate 50 ⟨1, 0⟩)

/-- The queue obtained from `fullQueue` by popping a single event: it holds
49 pending events, but its write cursor sits at the last slot. -/
def almostFullQueue : MsgQ := (dequeue fullQueue).2

/-- The local state of `main`'s control loop (main.c lines 99-132),
plus the modelled LED bit (`GPIOF->DATA & (1 << 1)`) and the record
`out` of `printTime` calls (arguments, most recent first). -/
structure LoopState where
  displayState : Nat
  clockHH : Nat
  clockMM : Nat
  alarmHH : Nat
  alarmMM : Nat
  previousClockTicks : Int
  previousAlarmTicks : Int
  previousSW1Ticks : Int
  ledOnTicks : Int
  lastSwitch1Processed : Int
  lastSwitch2Processed : Int
  led : Bool
  out : List (Nat × Nat)
  deriving DecidableEq

/-- Model of the switch-bounce filter (main.c lines 148-169).  Takes the
two last-processed ticks and the dequeue result; returns the effective
`switchPressed` value together with the updated last-processed ticks. -/
def debounce (lastSwitch1Processed lastSwitch2Processed : Int)
    (ev : Option Msg) : Int × Int × Int :=
  match ev with
  | none => (-1, lastSwitch1Processed, lastSwitch2Processed)
  | some m =>
    if m.switchPressed = 1 then
      if |m.switchPressedTime - lastSwitch1Processed| < DEBOUNCE_TIME then
        (-1, lastSwitch1Processed, lastSwitch2Processed)
      else
        (m.switchPressed, m.switchPressedTime, lastSwitch2Processed)
    else if m.switchPressed = 2 then
      if |m.switchPressedTime - lastSwitch2Processed| < DEBOUNCE_TIME then
        (-1, lastSwitch1Processed, lastSwitch2Processed)
      else
        (m.switchPressed, lastSwitch1Processed, m.switchPressedTime)
    else (m.switchPressed, lastSwitch1Processed, lastSwitch2Processed)

/-- Model of the `else // nothing in MessageQueue` branch of the loop
body (main.c lines 212-245): arming-window timeout, alarm-cycle timeout
with possible alarm firing, and the LED auto-off check. -/
def noEventChecks (s : LoopState) (now : Int) : LoopState :=
  let s1 :=
    if s.displayState = DISPLAY_ALARM_INIT ∧ |now - s.previousSW1Ticks| ≥ DELAY_TIME_10 then
      { s with displayState := DISPLAY_CLOCK, out := (s.clockHH, s.clockMM) :: s.out }
    else s
  let s2 :=
    if s1.displayState = DISPLAY_ALARM ∧ |now - s1.previousAlarmTicks| ≥ DELAY_TIME_60 then
      let p := decrementTime s1.alarmHH s1.alarmMM
      if p.1 = 0 ∧ p.2 = 0 then
        { s1 with alarmHH := p.1
                  alarmMM := p.2
                  displayState := DISPLAY_CLOCK
                  led := true
                  ledOnTicks := now
                  out := (s1.clockHH, s1.clockMM) :: s1.out }
      else
        { s1 with alarmHH := p.1
                  alarmMM := p.2
                  previousAlarmTicks := now
                  out := p :: s1.out }
    else s1
  if s2.led ∧ |now - s2.ledOnTicks| ≥ DELAY_TIME_15 then
    { s2 with led := false }
  else s2

/-- Model of the event/periodic dispatch of the loop body
(main.c lines 171-245), after debouncing. -/
def handleEvent (s : LoopState) (now : Int) (switchPressed : Int) : LoopState :=
  if switchPressed = 2 then
    let p := incrementTime s.alarmHH s.alarmMM
    { s with led := false
             displayState := DISPLAY_ALARM
             alarmHH := p.1
             alarmMM := p.2
             out := p :: s.out
             previousAlarmTicks := now }
  else if switchPressed = 1 then
    if s.led then { s with led := false }
    else
      let s1 :=
        if s.alarmHH = 0 ∧ s.alarmMM = 0 then
          { s with displayState := DISPLAY_ALARM_INIT, previousSW1Ticks := now }
        else if s.displayState = DISPLAY_ALARM then
          let p := decrementTime s.alarmHH s.alarmMM
          if p.1 = 0 ∧ p.2 = 0 then
            { s with alarmHH := p.1
                     alarmMM := p.2
                     displayState := DISPLAY_ALARM_INIT
                     previousSW1Ticks := now }
          else
            { s with alarmHH := p.1, alarmMM := p.2, previousAlarmTicks := now }
        else s
      { s1 with out := (s1.alarmHH, s1.alarmMM) :: s1.out }
  else noEventChecks s now

/-- Model of the unconditional wall-clock minute check at the end of the
loop body (main.c lines 247-254). -/
def clockTick (s : LoopState) (now : Int) : LoopState :=
  if |now - s.previousClockTicks| ≥ DELAY_TIME_60 then
    let p := incrementTime s.clockHH s.clockMM
    { s with previousClockTicks := now
             clockHH := p.1
             clockMM := p.2
             out := if s.displayState = DISPLAY_CLOCK then p :: s.out else s.out }
  else s

/-- Debounce followed by the event/periodic dispatch: the loop body up to
but excluding the wall-clock check. -/
def eventPhase (s : LoopState) (now : Int) (ev : Option Msg) : LoopState :=
  let d := debounce s.lastSwitch1Processed s.lastSwitch2Processed ev
  handleEvent
    { s with lastSwitch1Processed := d.2.1, lastSwitch2Processed := d.2.2 }
    now d.1

/-- One full iteration of the control loop (main.c lines 140-255), given
the tick snapshot `now` and the dequeue result `ev`. -/
def step (s : LoopState) (now : Int) (ev : Option Msg) : LoopState :=
  clockTick (eventPhase s now ev) now

/-- The loop state installed by `main` before the loop (main.c lines
99-138): display state CLOCK, clock 12:12 (rendered once), alarm 0:00,
LED off; `t0` and `t1` are the `CurrentTicks` values read at lines 137
and 138. -/
def initState (t0 t1 : Int) : LoopState :=
  { displayState := DISPLAY_CLOCK
    clockHH := CURRENT_HH
    clockMM := CURRENT_MM
    alarmHH := 0
    alarmMM := 0
    previousClockTicks := t0
    previousAlarmTicks := 0
    previousSW1Ticks := 0
    ledOnTicks := 0
    lastSwitch1Processed := t1
    lastSwitch2Processed := t1
    led := false
    out := [(CURRENT_HH, CURRENT_MM)] }

/-- Loop states reachable from startup under arbitrary tick values and
arbitrary dequeue results. -/
inductive Reach : LoopState → Prop where
  | init : ∀ t0 t1 : Int, Reach (initState t0 t1)
  | next : ∀ (s : LoopState) (now : Int) (ev : Option Msg),
      Reach s → Reach (step s now ev)

/-- Minute-of-day view of an hour/minute pair. -/
def minutesOfDay (p : Nat × Nat) : Nat := 60 * p.1 + p.2

/-- `incrementTime` as a map on pairs, for iteration. -/
def incrStep (p : Nat × Nat) : Nat × Nat := incrementTime p.1 p.2

theorem incrementTime_eq (h m : Nat) :
    incrementTime h m =
      if m + 1 = 60 then (if h + 1 = 24 then (0, 0) else (h + 1, 0))
      else (h, m + 1) := rfl

theorem decrementTime_eq (h m : Nat) :
    decrementTime h m =
      if h = 0 ∧ m = 0 then (h, m)
      else if m = 0 then (h - 1, 59) else (h, m - 1) := rfl

theorem incrementTime_norm (h m : Nat) (hh : h < 24) (hm : m < 60) :
    (incrementTime h m).1 < 24 ∧ (incrementTime h m).2 < 60 := by
  rw [incrementTime_eq]
  split
  · split
    · decide
    · show h + 1 < 24 ∧ 0 < 60
      omega
  · show h < 24 ∧ m + 1 < 60
    omega

theorem minutesOfDay_incrementTime (h m : Nat) (hh : h < 24) (hm : m < 60) :
    minutesOfDay (incrementTime h m) = (minutesOfDay (h, m) + 1) % 1440 := by
  rw [incrementTime_eq]
  split
  · split <;> simp [minutesOfDay] <;> omega
  · simp [minutesOfDay]; omega

theorem incrStep_iterate (n h m : Nat) (hh : h < 24) (hm : m < 60) :
    (incrStep^[n] (h, m)).1 < 24 ∧ (incrStep^[n] (h, m)).2 < 60 ∧
      minutesOfDay (incrStep^[n] (h, m)) = (minutesOfDay (h, m) + n) % 1440 := by
  induction n with
  | zero =>
    refine ⟨by simpa using hh, by simpa using hm, ?_⟩
    simp [minutesOfDay]
    omega
  | succ n ih =>
    obtain ⟨ih1, ih2, ih3⟩ := ih
    rw [Function.iterate_succ_apply']
    have hq : ((incrStep^[n] (h, m)).1, (incrStep^[n] (h, m)).2) = incrStep^[n] (h, m) := rfl
    have h1 := incrementTime_norm (incrStep^[n] (h, m)).1 (incrStep^[n] (h, m)).2 ih1 ih2
    have h2 := minutesOfDay_incrementTime (incrStep^[n] (h, m)).1 (incrStep^[n] (h, m)).2 ih1 ih2
    rw [hq, ih3] at h2
    refine ⟨h1.1, h1.2, ?_⟩
    have he : incrStep (incrStep^[n] (h, m)) =
        incrementTime (incrStep^[n] (h, m)).1 (incrStep^[n] (h, m)).2 := rfl
    rw [he, h2]
    omega

/-- C7: for every normalized TimeValue (hour below 24, minute below 60),
incrementing the decrement gives the time back unless it is 0:00, and
decrementing 0:00 is clamped to 0:00. -/
theorem decrement_increment_roundtrip : ∀ hh, hh < 24 → ∀ mm, mm < 60 →
    (¬(hh = 0 ∧ mm = 0) →
      incrementTime (decrementTime hh mm).1 (decrementTime hh mm).2 = (hh, mm)) ∧
    decrementTime 0 0 = (0, 0) := by decide

theorem decrement_increment_roundtrip_witness :
    incrementTime (decrementTime 5 0).1 (decrementTime 5 0).2 = (5, 0) ∧
      decrementTime 0 0 = (0, 0) :=
  ⟨(decrement_increment_roundtrip 5 (by decide) 0 (by decide)).1 (by decide),
   (decrement_increment_roundtrip 5 (by decide) 0 (by decide)).2⟩

/-- C8: for every normalized TimeValue, applying `incrementTime` 1440
times in succession returns exactly the original value. -/
theorem increment_daily_cycle : ∀ hh, hh < 24 → ∀ mm, mm < 60 →
    incrStep^[1440] (hh, mm) = (hh, mm) := by
  intro hh h1 mm h2
  obtain ⟨p1, p2, p3⟩ := incrStep_iterate 1440 hh mm h1 h2
  have hlt : minutesOfDay (hh, mm) < 1440 := by
    simp [minutesOfDay]; omega
  have hmod : (minutesOfDay (hh, mm) + 1440) % 1440 = minutesOfDay (hh, mm) := by
    omega
  rw [hmod] at p3
  rcases hp : incrStep^[1440] (hh, mm) with ⟨a, b⟩
  rw [hp] at p1 p2 p3
  simp only [minutesOfDay] at p3
  simp only [Prod.mk.injEq]
  constructor <;> omega

theorem increment_daily_cycle_witness : incrStep^[1440] (23, 59) = (23, 59) :=
  increment_daily_cycle 23 (by decide) 59 (by decide)

/-- C9 counterexample: the renderer does not emit the hour as a bare
single digit below 10; at 9:05 it emits a space-padded hour field. -/
theorem render_hour_pad_counterexample :
    renderTime 9 5 = " 9:05\r" ∧ renderTime 9 5 ≠ "9:05\r" := by decide

set_option maxHeartbeats 4000000 in
/-- C9 (amended): for every normalized TimeValue, the renderer emits the
hour right-justified in a two-character field padded with a space (a
space then the digit for hours below 10), a colon, the minute zero-padded
to exactly two digits, and a carriage return. -/
theorem render_format_space_padded : ∀ hh, hh < 24 → ∀ mm, mm < 60 →
    renderTime hh mm =
      String.mk [(if hh < 10 then ' ' else Char.ofNat (48 + hh / 10)),
                 Char.ofNat (48 + hh % 10), ':',
                 Char.ofNat (48 + mm / 10), Char.ofNat (48 + mm % 10), '\r'] := by
  decide

theorem render_format_space_padded_witness :
    renderTime 0 7 = String.mk [' ', '0', ':', '0', '7', '\r'] := by
  have h := render_format_space_padded 0 (by decide) 7 (by decide)
  simpa using h

/-- C4: the debounce filter is per-source.  A dequeued event whose tick
differs from its own source's last-accepted tick by less than 200 in
absolute value is rejected (result -1) with both last-accepted ticks
unchanged; one with difference at least 200 is accepted and updates only
its own source's last-accepted tick; and the outcome for one source
neither reads (conjuncts 5 and 6) nor changes the other source's
last-accepted tick. -/
theorem debounce_per_source : ∀ l1 l2 t : Int,
    (|t - l1| < DEBOUNCE_TIME → debounce l1 l2 (some ⟨1, t⟩) = (-1, l1, l2)) ∧
    (DEBOUNCE_TIME ≤ |t - l1| → debounce l1 l2 (some ⟨1, t⟩) = (1, t, l2)) ∧
    (|t - l2| < DEBOUNCE_TIME → debounce l1 l2 (some ⟨2, t⟩) = (-1, l1, l2)) ∧
    (DEBOUNCE_TIME ≤ |t - l2| → debounce l1 l2 (some ⟨2, t⟩) = (2, l1, t)) ∧
    (∀ l2' : Int,
      (debounce l1 l2' (some ⟨1, t⟩)).1 = (debounce l1 l2 (some ⟨1, t⟩)).1 ∧
      (debounce l1 l2' (some ⟨1, t⟩)).2.1 = (debounce l1 l2 (some ⟨1, t⟩)).2.1) ∧
    (∀ l1' : Int,
      (debounce l1' l2 (some ⟨2, t⟩)).1 = (debounce l1 l2 (some ⟨2, t⟩)).1 ∧
      (debounce l1' l2 (some ⟨2, t⟩)).2.2 = (debounce l1 l2 (some ⟨2, t⟩)).2.2) := by
  intro l1 l2 t
  refine ⟨fun h => ?_, fun h => ?_, fun h => ?_, fun h => ?_, fun l2' => ?_, fun l1' => ?_⟩
  · simp [debounce, h]
  · simp [debounce, not_lt.2 h]
  · simp [debounce, h]
  · simp [debounce, not_lt.2 h]
  · by_cases hc : |t - l1| < DEBOUNCE_TIME <;> simp [debounce, hc]
  · by_cases hc : |t - l2| < DEBOUNCE_TIME <;> simp [debounce, hc]

theorem debounce_per_source_witness :
    debounce 0 0 (some ⟨1, 300⟩) = (1, 300, 0) ∧
      debounce 0 0 (some ⟨2, 150⟩) = (-1, 0, 0) :=
  ⟨(debounce_per_source 0 0 300).2.1 (by decide),
   (debounce_per_source 0 0 150).2.2.1 (by decide)⟩

set_option maxRecDepth 40000 in
/-- C5 counterexample: a push can be dropped while the queue holds fewer
than 50 pending events.  Starting from the empty queue, push 50 events
and pop one: the resulting queue holds 49 pending events, yet a further
push leaves the queue completely unchanged (the event is dropped). -/
theorem enqueue_drop_not_full_counterexample :
    pendingCount almostFullQueue = 49 ∧
      enqueue almostFullQueue 2 5000 = almostFullQueue := by decide

/-- C5 (amended): a push is dropped — silently, with queue contents and
cursors unchanged — if and only if the write cursor sits at the last slot
(`RearQueue = 49`, i.e. 50 events have been enqueued since the queue was
last empty), not if and only if 50 events are currently pending; the
index scheme is linear, not circular, so a push can be dropped with fewer
than 50 events pending.  Whenever the write cursor is below the last
slot, a push appends the event at the (advanced) write cursor and the
pending count grows by one. -/
theorem enqueue_drop_iff_rear_at_last : ∀ (q : MsgQ) (sw tick : Int),
    (enqueue q sw tick = q ↔ q.RearQueue = (MESSAGE_QUEUE_SZ : Int) - 1) ∧
    (q.MessageQueue.length = MESSAGE_QUEUE_SZ → -1 ≤ q.RearQueue →
      q.RearQueue < (MESSAGE_QUEUE_SZ : Int) - 1 →
      (enqueue q sw tick).MessageQueue[(enqueue q sw tick).RearQueue.toNat]? =
          some ⟨sw, tick⟩ ∧
        pendingCount (enqueue q sw tick) = pendingCount q + 1) := by
  intro q sw tick
  constructor
  · constructor
    · intro h
      by_contra hr
      unfold enqueue at h
      rw [if_neg hr] at h
      split at h
      next hc =>
        have hf : (0 : Int) = q.FrontQueue := congrArg MsgQ.FrontQueue h
        omega
      next hc =>
        have hf : q.RearQueue + 1 = q.RearQueue := congrArg MsgQ.RearQueue h
        omega
    · intro h
      unfold enqueue
      rw [if_pos h]
  · intro hlen hge hlt
    unfold enqueue
    rw [if_neg (by omega)]
    split
    next hc =>
      constructor
      · exact List.getElem?_set_eq_of_lt _ (by rw [hlen]; decide)
      · simp [pendingCount, hc.1, hc.2]
    next hc =>
      constructor
      · refine List.getElem?_set_eq_of_lt _ ?_
        rw [hlen]
        simp only [MESSAGE_QUEUE_SZ] at hlt ⊢
        omega
      · simp only [pendingCount]
        split <;> omega

theorem enqueue_drop_iff_rear_at_last_witness :
    (enqueue emptyQueue 1 7).MessageQueue[(enqueue emptyQueue 1 7).RearQueue.toNat]? =
        some ⟨1, 7⟩ ∧
      pendingCount (enqueue emptyQueue 1 7) = pendingCount emptyQueue + 1 :=
  (enqueue_drop_iff_rear_at_last emptyQueue 1 7).2 (by decide) (by decide) (by decide)

theorem pushAll_append (q : MsgQ) (l1 l2 : List Msg) :
    pushAll q (l1 ++ l2) = pushAll (pushAll q l1) l2 :=
  List.foldl_append _ _ _ _

theorem pushAll_singleton (q : MsgQ) (e : Msg) :
    pushAll q [e] = enqueue q e.switchPressed e.switchPressedTime := rfl

theorem enqueue_empty_state (sw t : Int) :
    enqueue emptyQueue sw t =
      { MessageQueue := (List.replicate 50 (⟨0, 0⟩ : Msg)).set 0 ⟨sw, t⟩
        FrontQueue := 0
        RearQueue := 0 } := rfl

theorem enqueue_push_state (q : MsgQ) (sw t : Int)
    (h1 : q.RearQueue ≠ (MESSAGE_QUEUE_SZ : Int) - 1)
    (h2 : ¬(q.FrontQueue = -1 ∧ q.RearQueue = -1)) :
    enqueue q sw t =
      { MessageQueue := q.MessageQueue.set (q.RearQueue + 1).toNat ⟨sw, t⟩
        FrontQueue := q.FrontQueue
        RearQueue := q.RearQueue + 1 } := by
  unfold enqueue
  rw [if_neg h1, if_neg h2]

theorem dequeue_fst (q : MsgQ)
    (hne : ¬(q.FrontQueue = -1 ∧ q.RearQueue = -1)) :
    (dequeue q).1 = some (q.MessageQueue.getD q.FrontQueue.toNat ⟨0, 0⟩) := by
  simp only [dequeue, if_neg hne]
  split <;> rfl

theorem dequeue_snd_adv (q : MsgQ)
    (hne : ¬(q.FrontQueue = -1 ∧ q.RearQueue = -1))
    (hfr : q.FrontQueue ≠ q.RearQueue) :
    (dequeue q).2 =
      { MessageQueue := q.MessageQueue.set q.FrontQueue.toNat
          ⟨-1, (q.MessageQueue.getD q.FrontQueue.toNat ⟨0, 0⟩).switchPressedTime⟩
        FrontQueue := q.FrontQueue + 1
        RearQueue := q.RearQueue } := by
  simp only [dequeue, if_neg hne, if_neg hfr]

theorem pushAll_state : ∀ evs : List Msg, 0 < evs.length → evs.length ≤ 50 →
    (pushAll emptyQueue evs).FrontQueue = 0 ∧
    (pushAll emptyQueue evs).RearQueue = (evs.length : Int) - 1 ∧
    (pushAll emptyQueue evs).MessageQueue.length = 50 ∧
    ∀ i : Nat, i < evs.length →
      (pushAll emptyQueue evs).MessageQueue[i]? = evs[i]? := by
  intro evs
  induction evs using List.reverseRecOn with
  | nil => intro h _; simp at h
  | append_singleton l e ih =>
    intro _ hle
    rw [pushAll_append, pushAll_singleton]
    rcases eq_or_ne l [] with hl | hl
    · subst hl
      simp only [pushAll, List.foldl_nil]
      rw [enqueue_empty_state]
      refine ⟨rfl, by simp, by simp, ?_⟩
      intro i hi
      have hi0 : i = 0 := by simp at hi; omega
      subst hi0
      have : ((List.replicate 50 (⟨0, 0⟩ : Msg)).set 0
          ⟨e.switchPressed, e.switchPressedTime⟩)[0]? =
          some ⟨e.switchPressed, e.switchPressedTime⟩ :=
        List.getElem?_set_eq_of_lt _ (by simp)
      rw [this]
      simp
    · have hlpos : 0 < l.length := List.length_pos.2 hl
      have hllen : l.length ≤ 50 := by simp at hle; omega
      obtain ⟨f1, f2, f3, f4⟩ := ih hlpos hllen
      have h48 : (l.length : Int) - 1 ≤ 48 := by
        have : l.length ≤ 49 := by simp at hle; omega
        omega
      have hq1 : (pushAll emptyQueue l).RearQueue ≠ (MESSAGE_QUEUE_SZ : Int) - 1 := by
        rw [f2]
        simp only [MESSAGE_QUEUE_SZ]
        omega
      have hq2 : ¬((pushAll emptyQueue l).FrontQueue = -1 ∧
          (pushAll emptyQueue l).RearQueue = -1) := by
        rw [f1]
        omega
      rw [enqueue_push_state _ _ _ hq1 hq2]
      have htn : ((pushAll emptyQueue l).RearQueue + 1).toNat = l.length := by
        rw [f2]
        omega
      refine ⟨f1, ?_, ?_, ?_⟩
      · rw [f2]
        simp
      · rw [List.length_set]
        exact f3
      · intro i hi
        rw [htn]
        rcases eq_or_ne i l.length with hie | hie
        · subst hie
          rw [List.getElem?_set_eq_of_lt _ (by rw [f3]; omega)]
          rw [List.getElem?_append_right (le_refl l.length)]
          simp
        · have hilt : i < l.length := by simp at hi; omega
          rw [List.getElem?_set_ne (by omega)]
          rw [f4 i hilt]
          rw [List.getElem?_append_left hilt]

theorem popN_fifo : ∀ (n : Nat) (q : MsgQ) (evs : List Msg) (k : Nat),
    q.MessageQueue.length = 50 →
    q.FrontQueue = (k : Int) →
    q.RearQueue = (evs.length : Int) - 1 →
    k + n = evs.length →
    0 < n →
    (∀ i : Nat, k ≤ i → i < evs.length → q.MessageQueue[i]? = evs[i]?) →
    (popN q n).1 = (evs.drop k).map some := by
  intro n
  induction n with
  | zero => intro q evs k _ _ _ _ h5 _; omega
  | succ n ih =>
    intro q evs k h1 h2 h3 h4 _ h6
    have hk : k < evs.length := by omega
    have hne : ¬(q.FrontQueue = -1 ∧ q.RearQueue = -1) := by omega
    have htn : q.FrontQueue.toNat = k := by omega
    have hm : q.MessageQueue.getD q.FrontQueue.toNat ⟨0, 0⟩ = evs[k] := by
      rw [List.getD_eq_getElem?_getD, htn, h6 k le_rfl hk,
        List.getElem?_eq_getElem hk]
      rfl
    rcases eq_or_ne q.FrontQueue q.RearQueue with hfr | hfr
    · have hn0 : n = 0 := by omega
      subst hn0
      have hdrop : evs.drop k = [evs[k]] := by
        rw [← List.getElem_cons_drop evs k hk]
        rw [List.drop_eq_nil_of_le (by omega)]
      simp only [popN]
      rw [dequeue_fst q hne, hm, hdrop]
      simp
    · have hk1 : k + 1 < evs.length := by omega
      have hq' := dequeue_snd_adv q hne hfr
      have hrec := ih (dequeue q).2 evs (k + 1)
        (by rw [hq']; simp only [List.length_set]; exact h1)
        (by rw [hq', h2]; simp)
        (by rw [hq']; exact h3)
        (by omega)
        (by omega)
        (by
          intro i hge hlt
          rw [hq']
          simp only []
          rw [htn, List.getElem?_set_ne (by omega)]
          exact h6 i (by omega) hlt)
      simp only [popN]
      rw [dequeue_fst q hne, hm, hrec, ← List.getElem_cons_drop evs k hk,
        List.map_cons]

theorem enqueue_full_drop (q : MsgQ)
    (h : q.RearQueue = (MESSAGE_QUEUE_SZ : Int) - 1) (sw t : Int) :
    enqueue q sw t = q := by
  unfold enqueue
  rw [if_pos h]

theorem pushAll_full_drop (q : MsgQ)
    (h : q.RearQueue = (MESSAGE_QUEUE_SZ : Int) - 1) :
    ∀ evs : List Msg, pushAll q evs = q := by
  intro evs
  induction evs with
  | nil => rfl
  | cons e rest ih =>
    simp only [pushAll, List.foldl_cons] at ih ⊢
    rw [enqueue_full_drop q h]
    exact ih

/-- C6: queue round trip.  Starting from the empty queue, pushing
`N ≤ 50` events and popping `N` times returns exactly those events, with
unmodified payloads, in FIFO order; pushing more than 50 events from
empty yields the same queue as pushing only the first 50 (only the
newest excess events are dropped, and the 50 stored entries are not
corrupted); popping the empty queue reports the queue-empty indication. -/
theorem queue_fifo_roundtrip : ∀ evs : List Msg,
    (evs.length ≤ MESSAGE_QUEUE_SZ →
      (popN (pushAll emptyQueue evs) evs.length).1 = evs.map some) ∧
    (MESSAGE_QUEUE_SZ < evs.length →
      pushAll emptyQueue evs = pushAll emptyQueue (evs.take MESSAGE_QUEUE_SZ)) ∧
    (dequeue emptyQueue).1 = none := by
  intro evs
  refine ⟨?_, ?_, rfl⟩
  · intro hle
    rcases eq_or_ne evs [] with h | h
    · subst h
      simp [popN, pushAll]
    · have hpos : 0 < evs.length := List.length_pos.2 h
      have hle50 : evs.length ≤ 50 := by
        simpa [MESSAGE_QUEUE_SZ] using hle
      obtain ⟨f1, f2, f3, f4⟩ := pushAll_state evs hpos hle50
      have hmain := popN_fifo evs.length (pushAll emptyQueue evs) evs 0 f3
        (by rw [f1]; rfl) f2 (by omega) hpos (fun i _ hi => f4 i hi)
      simpa using hmain
  · intro hgt
    have hgt50 : 50 < evs.length := by simpa [MESSAGE_QUEUE_SZ] using hgt
    have htake : evs.take MESSAGE_QUEUE_SZ ++ evs.drop MESSAGE_QUEUE_SZ = evs :=
      List.take_append_drop _ _
    have hlen : (evs.take MESSAGE_QUEUE_SZ).length = 50 := by
      rw [List.length_take]
      simp [MESSAGE_QUEUE_SZ]
      omega
    obtain ⟨g1, g2, g3, g4⟩ :=
      pushAll_state (evs.take MESSAGE_QUEUE_SZ) (by omega) (by omega)
    have hrear : (pushAll emptyQueue (evs.take MESSAGE_QUEUE_SZ)).RearQueue =
        (MESSAGE_QUEUE_SZ : Int) - 1 := by
      rw [g2, hlen]
      simp [MESSAGE_QUEUE_SZ]
    calc pushAll emptyQueue evs
        = pushAll emptyQueue (evs.take MESSAGE_QUEUE_SZ ++ evs.drop MESSAGE_QUEUE_SZ) := by
          rw [htake]
      _ = pushAll (pushAll emptyQueue (evs.take MESSAGE_QUEUE_SZ))
            (evs.drop MESSAGE_QUEUE_SZ) := pushAll_append _ _ _
      _ = pushAll emptyQueue (evs.take MESSAGE_QUEUE_SZ) :=
          pushAll_full_drop _ hrear _

theorem queue_fifo_roundtrip_witness :
    (popN (pushAll emptyQueue [⟨1, 10⟩, ⟨2, 300⟩]) 2).1 =
      [some ⟨1, 10⟩, some ⟨2, 300⟩] :=
  (queue_fifo_roundtrip [⟨1, 10⟩, ⟨2, 300⟩]).1 (by decide)

@[simp] theorem clockTick_displayState (s : LoopState) (now : Int) :
    (clockTick s now).displayState = s.displayState := by
  unfold clockTick
  split <;> rfl

@[simp] theorem clockTick_alarmHH (s : LoopState) (now : Int) :
    (clockTick s now).alarmHH = s.alarmHH := by
  unfold clockTick
  split <;> rfl

@[simp] theorem clockTick_alarmMM (s : LoopState) (now : Int) :
    (clockTick s now).alarmMM = s.alarmMM := by
  unfold clockTick
  split <;> rfl

@[simp] theorem clockTick_led (s : LoopState) (now : Int) :
    (clockTick s now).led = s.led := by
  unfold clockTick
  split <;> rfl

@[simp] theorem clockTick_ledOnTicks (s : LoopState) (now : Int) :
    (clockTick s now).ledOnTicks = s.ledOnTicks := by
  unfold clockTick
  split <;> rfl

@[simp] theorem clockTick_previousAlarmTicks (s : LoopState) (now : Int) :
    (clockTick s now).previousAlarmTicks = s.previousAlarmTicks := by
  unfold clockTick
  split <;> rfl

@[simp] theorem clockTick_previousSW1Ticks (s : LoopState) (now : Int) :
    (clockTick s now).previousSW1Ticks = s.previousSW1Ticks := by
  unfold clockTick
  split <;> rfl

theorem clockTick_eq (s : LoopState) (now : Int) :
    clockTick s now =
      if DELAY_TIME_60 ≤ |now - s.previousClockTicks| then
        { s with previousClockTicks := now
                 clockHH := (incrementTime s.clockHH s.clockMM).1
                 clockMM := (incrementTime s.clockHH s.clockMM).2
                 out := if s.displayState = DISPLAY_CLOCK then
                          incrementTime s.clockHH s.clockMM :: s.out
                        else s.out }
      else s := rfl

theorem clockTick_out_ne (s : LoopState) (now : Int)
    (h : s.displayState ≠ DISPLAY_CLOCK) : (clockTick s now).out = s.out := by
  rw [clockTick_eq]
  split
  · simp [if_neg h]
  · rfl

theorem clockTick_out_mem (s : LoopState) (now : Int) (a : Nat × Nat)
    (h : a ∈ s.out) : a ∈ (clockTick s now).out := by
  rw [clockTick_eq]
  split
  · simp only []
    split
    · exact List.mem_cons_of_mem _ h
    · exact h
  · exact h

@[simp] theorem noEventChecks_clockHH (s : LoopState) (now : Int) :
    (noEventChecks s now).clockHH = s.clockHH := by
  simp only [noEventChecks]
  repeat' split
  all_goals rfl

@[simp] theorem noEventChecks_clockMM (s : LoopState) (now : Int) :
    (noEventChecks s now).clockMM = s.clockMM := by
  simp only [noEventChecks]
  repeat' split
  all_goals rfl

@[simp] theorem noEventChecks_previousClockTicks (s : LoopState) (now : Int) :
    (noEventChecks s now).previousClockTicks = s.previousClockTicks := by
  simp only [noEventChecks]
  repeat' split
  all_goals rfl

@[simp] theorem handleEvent_clockHH (s : LoopState) (now sw : Int) :
    (handleEvent s now sw).clockHH = s.clockHH := by
  simp only [handleEvent]
  repeat' split
  all_goals first
  | rfl
  | exact noEventChecks_clockHH _ _

@[simp] theorem handleEvent_clockMM (s : LoopState) (now sw : Int) :
    (handleEvent s now sw).clockMM = s.clockMM := by
  simp only [handleEvent]
  repeat' split
  all_goals first
  | rfl
  | exact noEventChecks_clockMM _ _

@[simp] theorem handleEvent_previousClockTicks (s : LoopState) (now sw : Int) :
    (handleEvent s now sw).previousClockTicks = s.previousClockTicks := by
  simp only [handleEvent]
  repeat' split
  all_goals first
  | rfl
  | exact noEventChecks_previousClockTicks _ _

@[simp] theorem eventPhase_clockHH (s : LoopState) (now : Int) (ev : Option Msg) :
    (eventPhase s now ev).clockHH = s.clockHH := by
  simp only [eventPhase]
  rw [handleEvent_clockHH]

@[simp] theorem eventPhase_clockMM (s : LoopState) (now : Int) (ev : Option Msg) :
    (eventPhase s now ev).clockMM = s.clockMM := by
  simp only [eventPhase]
  rw [handleEvent_clockMM]

@[simp] theorem eventPhase_previousClockTicks (s : LoopState) (now : Int)
    (ev : Option Msg) :
    (eventPhase s now ev).previousClockTicks = s.previousClockTicks := by
  simp only [eventPhase]
  rw [handleEvent_previousClockTicks]

theorem debounce_accept_sw2 (l1 l2 t : Int) (h : DEBOUNCE_TIME ≤ |t - l2|) :
    debounce l1 l2 (some ⟨2, t⟩) = (2, l1, t) := by
  simp [debounce, not_lt.2 h]

theorem debounce_accept_sw1 (l1 l2 t : Int) (h : DEBOUNCE_TIME ≤ |t - l1|) :
    debounce l1 l2 (some ⟨1, t⟩) = (1, t, l2) := by
  simp [debounce, not_lt.2 h]

theorem eventPhase_sw2 (s : LoopState) (now t : Int)
    (h : DEBOUNCE_TIME ≤ |t - s.lastSwitch2Processed|) :
    eventPhase s now (some ⟨2, t⟩) =
      { s with led := false
               displayState := DISPLAY_ALARM
               alarmHH := (incrementTime s.alarmHH s.alarmMM).1
               alarmMM := (incrementTime s.alarmHH s.alarmMM).2
               out := incrementTime s.alarmHH s.alarmMM :: s.out
               previousAlarmTicks := now
               lastSwitch2Processed := t } := by
  simp only [eventPhase]
  rw [debounce_accept_sw2 _ _ _ h]
  rfl

theorem eventPhase_sw1_ledOn (s : LoopState) (now t : Int)
    (hdeb : DEBOUNCE_TIME ≤ |t - s.lastSwitch1Processed|) (hled : s.led = true) :
    eventPhase s now (some ⟨1, t⟩) =
      { s with lastSwitch1Processed := t, led := false } := by
  simp only [eventPhase]
  rw [debounce_accept_sw1 _ _ _ hdeb]
  unfold handleEvent
  rw [if_neg (by decide : ¬(1 : Int) = 2), if_pos (rfl : (1 : Int) = 1),
    if_pos hled]

theorem debounce_reject_lasts (l1 l2 : Int) (ev : Option Msg)
    (h : (debounce l1 l2 ev).1 = -1) :
    (debounce l1 l2 ev).2.1 = l1 ∧ (debounce l1 l2 ev).2.2 = l2 := by
  cases ev with
  | none => exact ⟨rfl, rfl⟩
  | some m =>
    by_cases h1 : m.switchPressed = 1
    · by_cases hb : |m.switchPressedTime - l1| < DEBOUNCE_TIME
      · simp [debounce, h1, hb]
      · simp [debounce, h1, hb] at h
    · by_cases h2 : m.switchPressed = 2
      · by_cases hb : |m.switchPressedTime - l2| < DEBOUNCE_TIME
        · simp [debounce, h1, h2, hb]
        · simp [debounce, h1, h2, hb] at h
      · simp [debounce, h1, h2]

theorem eventPhase_noAccept (s : LoopState) (now : Int) (ev : Option Msg)
    (h : (debounce s.lastSwitch1Processed s.lastSwitch2Processed ev).1 = -1) :
    eventPhase s now ev = noEventChecks s now := by
  obtain ⟨h1, h2⟩ := debounce_reject_lasts _ _ _ h
  simp only [eventPhase]
  rw [h1, h2, h]
  rfl

/-- C1: from any loop state, an accepted SWITCH2 event (tick at least 200
from the last accepted SWITCH2 tick) makes the iteration turn the LED
off, increment the alarm time by one minute, render the alarm time,
record the current tick as the start of a new alarm cycle, and move to
state `DISPLAY_ALARM` (ALARM_RUNNING); in particular, from the startup
state (CLOCK, clock 12:12, alarm 0:00), one accepted SWITCH2 press
yields state ALARM_RUNNING with displayed alarm time 0:01. -/
theorem switch2_arms_alarm :
    (∀ (s : LoopState) (now t : Int),
      DEBOUNCE_TIME ≤ |t - s.lastSwitch2Processed| →
        (step s now (some ⟨2, t⟩)).led = false ∧
        (step s now (some ⟨2, t⟩)).displayState = DISPLAY_ALARM ∧
        ((step s now (some ⟨2, t⟩)).alarmHH, (step s now (some ⟨2, t⟩)).alarmMM) =
          incrementTime s.alarmHH s.alarmMM ∧
        (step s now (some ⟨2, t⟩)).previousAlarmTicks = now ∧
        (step s now (some ⟨2, t⟩)).out.head? =
          some (incrementTime s.alarmHH s.alarmMM)) ∧
    ((step (initState 0 0) 500 (some ⟨2, 500⟩)).displayState = DISPLAY_ALARM ∧
      (step (initState 0 0) 500 (some ⟨2, 500⟩)).alarmHH = 0 ∧
      (step (initState 0 0) 500 (some ⟨2, 500⟩)).alarmMM = 1 ∧
      (step (initState 0 0) 500 (some ⟨2, 500⟩)).out.head? = some (0, 1)) := by
  constructor
  · intro s now t h
    have he := eventPhase_sw2 s now t h
    unfold step
    rw [he]
    refine ⟨?_, ?_, ?_, ?_, ?_⟩
    · rw [clockTick_led]
    · rw [clockTick_displayState]
    · rw [clockTick_alarmHH, clockTick_alarmMM]
    · rw [clockTick_previousAlarmTicks]
    · rw [clockTick_out_ne _ _ (show DISPLAY_ALARM ≠ DISPLAY_CLOCK by decide)]
      rfl
  · decide

theorem switch2_arms_alarm_witness :
    (step { displayState := DISPLAY_CLOCK, clockHH := 3, clockMM := 4,
            alarmHH := 0, alarmMM := 0, previousClockTicks := 0,
            previousAlarmTicks := 0, previousSW1Ticks := 0, ledOnTicks := 0,
            lastSwitch1Processed := 0, lastSwitch2Processed := 0, led := true,
            out := [] } 900 (some ⟨2, 900⟩)).displayState = DISPLAY_ALARM :=
  ((switch2_arms_alarm.1 _ 900 900 (by decide)).2.1)

/-- C3: the wall-clock minute check runs on every loop iteration, for
every dequeue result (no event, rejected event, or accepted event): when
at least 60,000 ticks have elapsed since the last clock-minute tick, the
clock time is incremented and the clock-minute timer restarted, with the
new clock time rendered exactly when the display state is CLOCK; when
fewer have elapsed, the clock and its timer are untouched.  Clock
advancement is therefore never suppressed by alarm or arming activity. -/
theorem clock_advance_unconditional :
    ∀ (s : LoopState) (now : Int) (ev : Option Msg),
      (DELAY_TIME_60 ≤ |now - s.previousClockTicks| →
        ((step s now ev).clockHH, (step s now ev).clockMM) =
          incrementTime s.clockHH s.clockMM ∧
        (step s now ev).previousClockTicks = now ∧
        ((step s now ev).displayState = DISPLAY_CLOCK →
          (step s now ev).out =
            incrementTime s.clockHH s.clockMM :: (eventPhase s now ev).out) ∧
        ((step s now ev).displayState ≠ DISPLAY_CLOCK →
          (step s now ev).out = (eventPhase s now ev).out)) ∧
      (|now - s.previousClockTicks| < DELAY_TIME_60 →
        (step s now ev).clockHH = s.clockHH ∧
        (step s now ev).clockMM = s.clockMM ∧
        (step s now ev).previousClockTicks = s.previousClockTicks ∧
        (step s now ev).out = (eventPhase s now ev).out) := by
  intro s now ev
  constructor
  · intro h
    unfold step
    rw [clockTick_eq, eventPhase_previousClockTicks, eventPhase_clockHH,
      eventPhase_clockMM, if_pos h]
    refine ⟨rfl, rfl, ?_, ?_⟩
    · intro hd
      have hd2 : (eventPhase s now ev).displayState = DISPLAY_CLOCK := hd
      simp [hd2]
    · intro hd
      have hd2 : (eventPhase s now ev).displayState ≠ DISPLAY_CLOCK := hd
      simp [hd2]
  · intro h
    unfold step
    rw [clockTick_eq, eventPhase_previousClockTicks, if_neg (not_le.2 h)]
    exact ⟨eventPhase_clockHH s now ev, eventPhase_clockMM s now ev,
      eventPhase_previousClockTicks s now ev, rfl⟩

theorem noEventChecks_alarm_decr (s : LoopState) (now : Int)
    (hst : s.displayState = DISPLAY_ALARM)
    (hel : DELAY_TIME_60 ≤ |now - s.previousAlarmTicks|) :
    ((noEventChecks s now).alarmHH, (noEventChecks s now).alarmMM) =
      decrementTime s.alarmHH s.alarmMM := by
  have h1 : ¬(s.displayState = DISPLAY_ALARM_INIT ∧
      |now - s.previousSW1Ticks| ≥ DELAY_TIME_10) := by
    simp [hst, DISPLAY_ALARM, DISPLAY_ALARM_INIT]
  simp only [noEventChecks]
  rw [if_neg h1, if_pos (And.intro hst hel)]
  split
  · split <;> rfl
  · split <;> rfl

theorem noEventChecks_alarm_fire_eq (s : LoopState) (now : Int)
    (hst : s.displayState = DISPLAY_ALARM)
    (hel : DELAY_TIME_60 ≤ |now - s.previousAlarmTicks|)
    (hz : decrementTime s.alarmHH s.alarmMM = (0, 0)) :
    noEventChecks s now =
      { s with alarmHH := (0 : Nat)
               alarmMM := (0 : Nat)
               displayState := DISPLAY_CLOCK
               led := true
               ledOnTicks := now
               out := (s.clockHH, s.clockMM) :: s.out } := by
  have h1 : ¬(s.displayState = DISPLAY_ALARM_INIT ∧
      |now - s.previousSW1Ticks| ≥ DELAY_TIME_10) := by
    simp [hst, DISPLAY_ALARM, DISPLAY_ALARM_INIT]
  simp only [noEventChecks]
  rw [if_neg h1, if_pos (And.intro hst hel), hz]
  rw [if_pos (show ((0, 0) : Nat × Nat).1 = 0 ∧ ((0, 0) : Nat × Nat).2 = 0 from
    ⟨rfl, rfl⟩)]
  split
  next hcond =>
    exfalso
    simp [DELAY_TIME_15] at hcond
  next hcond => rfl

theorem noEventChecks_led_off (s : LoopState) (now : Int)
    (hst : s.displayState = DISPLAY_CLOCK) (hled : s.led = true)
    (hel : DELAY_TIME_15 ≤ |now - s.ledOnTicks|) :
    (noEventChecks s now).led = false := by
  have h1 : ¬(s.displayState = DISPLAY_ALARM_INIT ∧
      |now - s.previousSW1Ticks| ≥ DELAY_TIME_10) := by
    simp [hst, DISPLAY_CLOCK, DISPLAY_ALARM_INIT]
  have h2 : ¬(s.displayState = DISPLAY_ALARM ∧
      |now - s.previousAlarmTicks| ≥ DELAY_TIME_60) := by
    simp [hst, DISPLAY_CLOCK, DISPLAY_ALARM]
  simp only [noEventChecks]
  rw [if_neg h1, if_neg h2, if_pos (And.intro hled hel)]

/-- C2: alarm expiry and LED behavior.  (1) In state `DISPLAY_ALARM`
(ALARM_RUNNING) with no accepted event this iteration, once at least
60,000 ticks have elapsed since the last alarm-cycle tick the alarm time
is decremented; if the decrement reaches 0:00 the state becomes CLOCK,
the clock time is rendered, the LED turns on and the led-on tick is
recorded.  (2) In state CLOCK with no accepted event, an LED that has
been on for at least 15,000 ticks is turned off.  (3) An accepted
SWITCH1 press while the LED is on turns the LED off immediately and
changes nothing else in the state machine (display state, alarm time and
all alarm/arming timestamps are untouched, and the event phase renders
nothing). -/
theorem alarm_fire_led_behavior :
    ∀ (s : LoopState) (now : Int) (ev : Option Msg),
      ((debounce s.lastSwitch1Processed s.lastSwitch2Processed ev).1 = -1 →
        s.displayState = DISPLAY_ALARM →
        DELAY_TIME_60 ≤ |now - s.previousAlarmTicks| →
        ((step s now ev).alarmHH, (step s now ev).alarmMM) =
          decrementTime s.alarmHH s.alarmMM ∧
        (decrementTime s.alarmHH s.alarmMM = (0, 0) →
          (step s now ev).displayState = DISPLAY_CLOCK ∧
          (step s now ev).led = true ∧
          (step s now ev).ledOnTicks = now ∧
          (s.clockHH, s.clockMM) ∈ (step s now ev).out)) ∧
      ((debounce s.lastSwitch1Processed s.lastSwitch2Processed ev).1 = -1 →
        s.displayState = DISPLAY_CLOCK → s.led = true →
        DELAY_TIME_15 ≤ |now - s.ledOnTicks| →
        (step s now ev).led = false) ∧
      (∀ t : Int, DEBOUNCE_TIME ≤ |t - s.lastSwitch1Processed| → s.led = true →
        (step s now (some ⟨1, t⟩)).led = false ∧
        (step s now (some ⟨1, t⟩)).displayState = s.displayState ∧
        (step s now (some ⟨1, t⟩)).alarmHH = s.alarmHH ∧
        (step s now (some ⟨1, t⟩)).alarmMM = s.alarmMM ∧
        (step s now (some ⟨1, t⟩)).previousAlarmTicks = s.previousAlarmTicks ∧
        (step s now (some ⟨1, t⟩)).previousSW1Ticks = s.previousSW1Ticks ∧
        (step s now (some ⟨1, t⟩)).ledOnTicks = s.ledOnTicks ∧
        (eventPhase s now (some ⟨1, t⟩)).out = s.out) := by
  intro s now ev
  refine ⟨?_, ?_, ?_⟩
  · intro hdeb hst hel
    unfold step
    rw [eventPhase_noAccept s now ev hdeb]
    constructor
    · rw [clockTick_alarmHH, clockTick_alarmMM]
      exact noEventChecks_alarm_decr s now hst hel
    · intro hz
      rw [noEventChecks_alarm_fire_eq s now hst hel hz]
      refine ⟨?_, ?_, ?_, ?_⟩
      · rw [clockTick_displayState]
      · rw [clockTick_led]
      · rw [clockTick_ledOnTicks]
      · exact clockTick_out_mem _ _ _ (List.mem_cons_self _ _)
  · intro hdeb hst hled hel
    unfold step
    rw [eventPhase_noAccept s now ev hdeb, clockTick_led]
    exact noEventChecks_led_off s now hst hled hel
  · intro t hdeb hled
    unfold step
    rw [eventPhase_sw1_ledOn s now t hdeb hled]
    refine ⟨?_, ?_, ?_, ?_, ?_, ?_, ?_, rfl⟩
    · rw [clockTick_led]
    · rw [clockTick_displayState]
    · rw [clockTick_alarmHH]
    · rw [clockTick_alarmMM]
    · rw [clockTick_previousAlarmTicks]
    · rw [clockTick_previousSW1Ticks]
    · rw [clockTick_ledOnTicks]

theorem alarm_fire_led_behavior_witness :
    ((step { displayState := DISPLAY_ALARM, clockHH := 12, clockMM := 13,
             alarmHH := 0, alarmMM := 1, previousClockTicks := 70000,
             previousAlarmTicks := 9000, previousSW1Ticks := 0, ledOnTicks := 0,
             lastSwitch1Processed := 0, lastSwitch2Processed := 0, led := false,
             out := [] } 70000 none).displayState = DISPLAY_CLOCK ∧
      (step { displayState := DISPLAY_ALARM, clockHH := 12, clockMM := 13,
              alarmHH := 0, alarmMM := 1, previousClockTicks := 70000,
              previousAlarmTicks := 9000, previousSW1Ticks := 0, ledOnTicks := 0,
              lastSwitch1Processed := 0, lastSwitch2Processed := 0, led := false,
              out := [] } 70000 none).led = true) ∧
    (step { displayState := DISPLAY_CLOCK, clockHH := 12, clockMM := 13,
            alarmHH := 0, alarmMM := 0, previousClockTicks := 70000,
            previousAlarmTicks := 0, previousSW1Ticks := 0, ledOnTicks := 70000,
            lastSwitch1Processed := 0, lastSwitch2Processed := 0, led := true,
            out := [] } 86000 none).led = false ∧
    (step { displayState := DISPLAY_ALARM, clockHH := 12, clockMM := 13,
            alarmHH := 0, alarmMM := 5, previousClockTicks := 70000,
            previousAlarmTicks := 70000, previousSW1Ticks := 0, ledOnTicks := 70000,
            lastSwitch1Processed := 0, lastSwitch2Processed := 0, led := true,
            out := [] } 70400 (some ⟨1, 70400⟩)).led = false := by
  refine ⟨⟨?_, ?_⟩, ?_, ?_⟩
  · exact (((alarm_fire_led_behavior _ 70000 none).1 (by decide) (by decide)
      (by decide)).2 (by decide)).1
  · exact (((alarm_fire_led_behavior _ 70000 none).1 (by decide) (by decide)
      (by decide)).2 (by decide)).2.1
  · exact (alarm_fire_led_behavior _ 86000 none).2.1 (by decide) (by decide)
      (by decide) (by decide)
  · exact ((alarm_fire_led_behavior _ 70400 none).2.2 70400 (by decide)
      (by decide)).1

theorem clock_advance_unconditional_witness :
    ((step (initState 0 0) 60000 none).clockHH,
        (step (initState 0 0) 60000 none).clockMM) = incrementTime 12 12 ∧
      (step (initState 0 0) 60000 none).previousClockTicks = 60000 :=
  ⟨((clock_advance_unconditional (initState 0 0) 60000 none).1 (by decide)).1,
   ((clock_advance_unconditional (initState 0 0) 60000 none).1 (by decide)).2.1⟩

theorem noEventChecks_alarm_inv (s : LoopState) (now : Int)
    (h : (s.displayState = DISPLAY_CLOCK ∨ s.displayState = DISPLAY_ALARM_INIT) →
      s.alarmHH = 0 ∧ s.alarmMM = 0) :
    ((noEventChecks s now).displayState = DISPLAY_CLOCK ∨
      (noEventChecks s now).displayState = DISPLAY_ALARM_INIT) →
    (noEventChecks s now).alarmHH = 0 ∧ (noEventChecks s now).alarmMM = 0 := by
  simp only [noEventChecks]
  split
  next hc1 =>
    split
    next hc2 =>
      exfalso
      have hx : DISPLAY_CLOCK = DISPLAY_ALARM := hc2.1
      simp [DISPLAY_CLOCK, DISPLAY_ALARM] at hx
    next hc2 =>
      split
      next hc3 => exact fun _ => h (Or.inr hc1.1)
      next hc3 => exact fun _ => h (Or.inr hc1.1)
  next hc1 =>
    split
    next hc2 =>
      split
      next hp =>
        split
        next hc3 => exact fun _ => hp
        next hc3 => exact fun _ => hp
      next hp =>
        split
        next hc3 =>
          intro hd
          exfalso
          have hd2 : s.displayState = DISPLAY_CLOCK ∨
              s.displayState = DISPLAY_ALARM_INIT := hd
          rcases hd2 with hd2 | hd2 <;> rw [hc2.1] at hd2 <;>
            simp [DISPLAY_ALARM, DISPLAY_CLOCK, DISPLAY_ALARM_INIT] at hd2
        next hc3 =>
          intro hd
          exfalso
          have hd2 : s.displayState = DISPLAY_CLOCK ∨
              s.displayState = DISPLAY_ALARM_INIT := hd
          rcases hd2 with hd2 | hd2 <;> rw [hc2.1] at hd2 <;>
            simp [DISPLAY_ALARM, DISPLAY_CLOCK, DISPLAY_ALARM_INIT] at hd2
    next hc2 =>
      split
      next hc3 =>
        intro hd
        exact h hd
      next hc3 =>
        intro hd
        exact h hd

theorem handleEvent_alarm_inv (s : LoopState) (now sw : Int)
    (h : (s.displayState = DISPLAY_CLOCK ∨ s.displayState = DISPLAY_ALARM_INIT) →
      s.alarmHH = 0 ∧ s.alarmMM = 0) :
    ((handleEvent s now sw).displayState = DISPLAY_CLOCK ∨
      (handleEvent s now sw).displayState = DISPLAY_ALARM_INIT) →
    (handleEvent s now sw).alarmHH = 0 ∧ (handleEvent s now sw).alarmMM = 0 := by
  simp only [handleEvent]
  split
  next hsw =>
    intro hd
    exfalso
    have hd2 : DISPLAY_ALARM = DISPLAY_CLOCK ∨ DISPLAY_ALARM = DISPLAY_ALARM_INIT := hd
    rcases hd2 with hd2 | hd2 <;>
      simp [DISPLAY_ALARM, DISPLAY_CLOCK, DISPLAY_ALARM_INIT] at hd2
  next hsw =>
    split
    next hsw1 =>
      split
      next hled => exact fun hd => h hd
      next hled =>
        split
        next hz => exact fun _ => hz
        next hz =>
          split
          next hdisp =>
            split
            next hp => exact fun _ => hp
            next hp =>
              intro hd
              exfalso
              have hd2 : s.displayState = DISPLAY_CLOCK ∨
                  s.displayState = DISPLAY_ALARM_INIT := hd
              rcases hd2 with hd2 | hd2 <;> rw [hdisp] at hd2 <;>
                simp [DISPLAY_ALARM, DISPLAY_CLOCK, DISPLAY_ALARM_INIT] at hd2
          next hdisp =>
            intro hd
            have hd2 : s.displayState = DISPLAY_CLOCK ∨
                s.displayState = DISPLAY_ALARM_INIT := hd
            exact h hd2
    next hsw1 => exact noEventChecks_alarm_inv s now h

theorem eventPhase_alarm_inv (s : LoopState) (now : Int) (ev : Option Msg)
    (h : (s.displayState = DISPLAY_CLOCK ∨ s.displayState = DISPLAY_ALARM_INIT) →
      s.alarmHH = 0 ∧ s.alarmMM = 0) :
    ((eventPhase s now ev).displayState = DISPLAY_CLOCK ∨
      (eventPhase s now ev).displayState = DISPLAY_ALARM_INIT) →
    (eventPhase s now ev).alarmHH = 0 ∧ (eventPhase s now ev).alarmMM = 0 := by
  simp only [eventPhase]
  exact handleEvent_alarm_inv _ now _ h

/-- C10: in every loop state reachable from startup (state CLOCK, alarm
0:00), if the display state is `DISPLAY_CLOCK` (CLOCK) or
`DISPLAY_ALARM_INIT` (ALARM_ARMING) then the alarm time is 0:00 — a
nonzero alarm time is only ever held in state `DISPLAY_ALARM`
(ALARM_RUNNING), and every transition out of that state leaves the alarm
time at 0:00. -/
theorem alarm_zero_unless_running :
    ∀ s : LoopState, Reach s →
      (s.displayState = DISPLAY_CLOCK ∨ s.displayState = DISPLAY_ALARM_INIT) →
      s.alarmHH = 0 ∧ s.alarmMM = 0 := by
  intro s hr
  induction hr with
  | init t0 t1 => exact fun _ => ⟨rfl, rfl⟩
  | next s now ev hr ih =>
    intro hd
    have hd2 : (eventPhase s now ev).displayState = DISPLAY_CLOCK ∨
        (eventPhase s now ev).displayState = DISPLAY_ALARM_INIT := by
      simpa only [step, clockTick_displayState] using hd
    have hres := eventPhase_alarm_inv s now ev ih hd2
    simpa only [step, clockTick_alarmHH, clockTick_alarmMM] using hres

theorem alarm_zero_unless_running_witness :
    (step (initState 0 0) 70000 none).alarmHH = 0 ∧
      (step (initState 0 0) 70000 none).alarmMM = 0 :=
  alarm_zero_unless_running (step (initState 0 0) 70000 none)
    (Reach.next (initState 0 0) 70000 none (Reach.init 0 0)) (Or.inl (by decide))
